import Mathlib

/-!
# Verification of gospeak (src/main.go)

A shallow embedding of the gospeak command-line text-to-speech tool.
The embedding models `main` after flag parsing and the `help` check
(from the provider-normalization step, src/main.go line 895, to the end),
together with the pure helpers `isValidOpenAIVoice`,
`resolveElevenLabsVoice`, `resolveDeepgramVoice` and the request-building
portions of `synthesizeOpenAI`, `synthesizeElevenLabs`,
`synthesizeDeepgram`.

Modelling conventions:
* Go `float64` speeds are embedded as `Rat`; the numeric literals of the
  source (`0.25`, `4.0`, `0.7`, `1.2`, `1.0`) become the corresponding
  rational literals.
* `strings.ToLower` is modelled by the character-wise `lowerStr` (they
  agree on ASCII, which covers every preset key).
* Go maps with string keys (`elevenLabsVoices`, `deepgramVoices`) are
  embedded as association lists with `List.lookup`.
* Effects are recorded as a trace of `Event`s: a line printed to stderr,
  a dispatched synthesis HTTP request, a playback attempt, a completed
  file write.  Fallible effects (network synthesis, playback, file write)
  are decided by an `oracle : Nat → Bool` consumed in program order.
* `os.Exit(1)` / normal termination become the `exitCode` field of the
  resulting `Outcome`.
-/

namespace Gospeak

/-- JSON values, as produced by Go `encoding/json` marshalling of the
request structs (string fields, float64 fields, nested objects). -/
inductive Json where
  | str : String → Json
  | num : Rat → Json
  | obj : List (String × Json) → Json

/-- A transport-ready request descriptor: method, full URL, headers and
the top-level fields of the JSON body, in marshalling order. -/
structure HTTPRequest where
  method : String
  url : String
  headers : List (String × String)
  body : List (String × Json)

/-- One observable effect of a run. `request` is a dispatched synthesis
attempt (the network call is made; the oracle decides its success),
`play` is a playback attempt, `write` is a completed file write,
`err` is a line printed to the error stream. -/
inductive Event where
  | err : String → Event
  | request : HTTPRequest → Event
  | play : Event
  | write : String → Event

/-- Result of a run: the ordered effect trace and the process exit code. -/
structure Outcome where
  events : List Event
  exitCode : Nat

/-- The three supported providers (the closed set validated at
src/main.go line 896). -/
inductive Provider where
  | openai
  | elevenlabs
  | deepgram
deriving DecidableEq

/-- Flag values as they stand after `flag.Parse()` (defaults already
applied by the flag package; provider-dependent defaults not yet). -/
structure Flags where
  provider : String
  voice : String
  model : String
  output : String
  speed : Rat
  speak : Bool
  token : String
  allFlag : Bool
  stability : Rat
  similarityBoost : Rat

/-! ## Static tables and constants (src/main.go lines 714-775) -/

def defaultSpeed : Rat := 1.0

def openAIAPIURL : String := "https://api.openai.com/v1/audio/speech"

def elevenLabsAPIURL : String := "https://api.elevenlabs.io/v1/text-to-speech"

def deepgramAPIURL : String := "https://api.deepgram.com/v1/speak"

def openAIVoices : List String := ["alloy", "echo", "fable", "onyx", "nova", "shimmer"]

def elevenLabsVoices : List (String × String) :=
  [("rachel", "21m00Tcm4TlvDq8ikWAM"),
   ("domi", "AZnzlk1XvdvUeBnXmlld"),
   ("bella", "EXAVITQu4vr4xnSDxMaL"),
   ("antoni", "ErXwobaYiN019PkySvjV"),
   ("elli", "MF3mGyEYCl7XYWbV9V6O"),
   ("josh", "TxGEqnHWrfWFTfGW9XjX"),
   ("arnold", "VR6AewLTigWG4xSOukaG"),
   ("adam", "pNInz6obpgDQGcFmaJgB"),
   ("sam", "yoZ06aMxZJJ28mfd3POQ"),
   ("george", "JBFqnCBsd6RMkjVDRZzb"),
   ("charlie", "IKne3meq5aSn9XLyUdCD"),
   ("emily", "LcfcDJNUP1GQjkzn1xUU"),
   ("lily", "pFZP5JQG7iQjIQuC4Bku"),
   ("michael", "flq6f7yk4E4fJM5XTYuZ")]

def deepgramVoices : List (String × String) :=
  [("asteria", "aura-asteria-en"),
   ("luna", "aura-luna-en"),
   ("stella", "aura-stella-en"),
   ("athena", "aura-athena-en"),
   ("hera", "aura-hera-en"),
   ("orion", "aura-orion-en"),
   ("arcas", "aura-arcas-en"),
   ("perseus", "aura-perseus-en"),
   ("angus", "aura-angus-en"),
   ("orpheus", "aura-orpheus-en"),
   ("helios", "aura-helios-en"),
   ("zeus", "aura-zeus-en"),
   ("thalia", "aura-2-thalia-en"),
   ("andromeda", "aura-2-andromeda-en"),
   ("helena", "aura-2-helena-en"),
   ("jason", "aura-2-jason-en"),
   ("apollo", "aura-2-apollo-en"),
   ("ares", "aura-2-ares-en")]

/-- Provider-dependent default voice (src/main.go lines 902-911). -/
def defaultVoiceFor : Provider → String
  | .openai => "alloy"
  | .elevenlabs => "rachel"
  | .deepgram => "aura-asteria-en"

/-- Provider-dependent default model (src/main.go lines 912-922;
Deepgram keeps the empty model). -/
def defaultModelFor : Provider → String
  | .openai => "tts-1-hd"
  | .elevenlabs => "eleven_multilingual_v2"
  | .deepgram => ""

/-- The designated credential environment variable per provider
(src/main.go lines 927-941). -/
def envVarFor : Provider → String
  | .openai => "OPENAI_API_KEY"
  | .elevenlabs => "ELEVENLABS_API_KEY"
  | .deepgram => "DEEPGRAM_API_KEY"

/-- Go `strings.ToLower`, modelled character-wise with `Char.toLower`
(the two agree on ASCII, which covers every preset key and provider
name used by the program). -/
def lowerStr (s : String) : String := ⟨s.data.map Char.toLower⟩

/-- Provider-name validation (src/main.go line 896): the normalized
name must be one of the three supported strings. -/
def parseProvider (s : String) : Option Provider :=
  if s = "openai" then some .openai
  else if s = "elevenlabs" then some .elevenlabs
  else if s = "deepgram" then some .deepgram
  else none

/-! ## Pure helpers (src/main.go lines 1061-1086) -/

/-- `isValidOpenAIVoice` (src/main.go lines 1061-1068). -/
def isValidOpenAIVoice (voice : String) : Bool :=
  openAIVoices.any (fun v => v == voice)

/-- `resolveElevenLabsVoice` (src/main.go lines 1070-1077): case-insensitive
preset lookup, raw passthrough on miss. -/
def resolveElevenLabsVoice (voice : String) : String :=
  match elevenLabsVoices.lookup (lowerStr voice) with
  | some id => id
  | none => voice

/-- `resolveDeepgramVoice` (src/main.go lines 1079-1086): case-insensitive
preset lookup, raw passthrough on miss. -/
def resolveDeepgramVoice (voice : String) : String :=
  match deepgramVoices.lookup (lowerStr voice) with
  | some model => model
  | none => voice

/-! ## Request builders: the pure request-construction part of
`synthesizeOpenAI` / `synthesizeElevenLabs` / `synthesizeDeepgram`
(src/main.go lines 1088-1197). -/

/-- Request built by `synthesizeOpenAI` (src/main.go lines 1088-1108). -/
def buildOpenAIRequest (apiKey model voice text : String) (speed : Rat) : HTTPRequest :=
  { method := "POST"
    url := openAIAPIURL
    headers := [("Content-Type", "application/json"),
                ("Authorization", "Bearer " ++ apiKey)]
    body := [("model", .str model),
             ("input", .str text),
             ("voice", .str voice),
             ("response_format", .str "mp3"),
             ("speed", .num speed)] }

/-- Request built by `synthesizeElevenLabs` (src/main.go lines 1125-1148).
The `style` field carries the Go zero value and is dropped by `omitempty`;
`speed` is likewise dropped exactly when it is zero. -/
def buildElevenLabsRequest (apiKey model voiceID text : String)
    (speed stability similarityBoost : Rat) : HTTPRequest :=
  { method := "POST"
    url := elevenLabsAPIURL ++ "/" ++ voiceID ++ "?output_format=mp3_44100_128"
    headers := [("Content-Type", "application/json"),
                ("xi-api-key", apiKey)]
    body := [("text", .str text),
             ("model_id", .str model),
             ("voice_settings",
              .obj ([("stability", .num stability),
                     ("similarity_boost", .num similarityBoost)] ++
                    (if speed = 0 then [] else [("speed", .num speed)])))] }

/-- Request built by `synthesizeDeepgram` (src/main.go lines 1165-1182):
JSON body holds only the text; model and encoding travel as URL query
parameters; token-style Authorization header. -/
def buildDeepgramRequest (apiKey voiceModel text : String) : HTTPRequest :=
  { method := "POST"
    url := deepgramAPIURL ++ "?model=" ++ voiceModel ++ "&encoding=mp3"
    headers := [("Content-Type", "application/json"),
                ("Authorization", "Token " ++ apiKey)]
    body := [("text", .str text)] }

/-! ## Speed validation (src/main.go lines 946-962) -/

def openAISpeedMsg : String := "Error: Speed must be between 0.25 and 4.0 for OpenAI"

def elevenLabsSpeedMsg : String := "Error: Speed must be between 0.7 and 1.2 for ElevenLabs"

def deepgramSpeedWarn : String := "Warning: Speed adjustment is not supported for Deepgram, ignoring"

/-- The provider switch at src/main.go lines 946-962.  Returns the lines
printed to stderr and whether the check is fatal (`os.Exit(1)`). -/
def validateSpeed (p : Provider) (speed : Rat) : List Event × Bool :=
  match p with
  | .openai =>
    if speed < 0.25 ∨ speed > 4.0 then ([.err openAISpeedMsg], true) else ([], false)
  | .elevenlabs =>
    if speed < 0.7 ∨ speed > 1.2 then ([.err elevenLabsSpeedMsg], true) else ([], false)
  | .deepgram =>
    if speed ≠ defaultSpeed then ([.err deepgramSpeedWarn], false) else ([], false)

/-! ## Demo-all mode (src/main.go lines 988-1017) -/

/-- One iteration of the `--all` loop (src/main.go lines 993-1015) for
voice `v`, with `k` the index of the next oracle-decided fallible effect.
Announcement synthesis, announcement playback, utterance synthesis,
utterance playback; a failure of either announcement step `continue`s,
skipping the rest of this iteration. -/
def demoVoice (apiKey model text : String) (speed : Rat) (oracle : Nat → Bool)
    (v : String) (k : Nat) : List Event × Nat :=
  let req1 := buildOpenAIRequest apiKey model v v speed
  let req2 := buildOpenAIRequest apiKey model v text speed
  let e0 : Event := .err ("Speaking with voice: " ++ v)
  if oracle k then
    if oracle (k + 1) then
      if oracle (k + 2) then
        if oracle (k + 3) then
          ([e0, .request req1, .play, .request req2, .play], k + 4)
        else
          ([e0, .request req1, .play, .request req2, .play,
            .err "Error playing audio"], k + 4)
      else
        ([e0, .request req1, .play, .request req2,
          .err "Error synthesizing"], k + 3)
    else
      ([e0, .request req1, .play, .err "Error playing audio"], k + 2)
  else
    ([e0, .request req1, .err "Error synthesizing voice announcement"], k + 1)

/-- The `--all` loop over a voice list, threading the oracle index. -/
def demoAll (apiKey model text : String) (speed : Rat) (oracle : Nat → Bool) :
    List String → Nat → List Event
  | [], _ => []
  | v :: vs, k =>
    let step := demoVoice apiKey model text speed oracle v k
    step.1 ++ demoAll apiKey model text speed oracle vs step.2

/-! ## Single-shot synthesis and output orchestration
(src/main.go lines 1019-1058) -/

/-- Error-stream line for a rejected OpenAI voice (src/main.go line 1026). -/
def invalidVoiceMsg (voice : String) : String :=
  "Error: Invalid OpenAI voice " ++ voice ++
    ". Valid voices: alloy, echo, fable, onyx, nova, shimmer"

/-- The tail of `main` after a successfully built request `req`:
dispatch (oracle test 0), then file write (when `output` is non-empty)
and playback (when `output` is empty or `speak` is set), each consuming
the next oracle index (src/main.go lines 1038-1058). -/
def afterSynth (req : HTTPRequest) (output : String) (speak : Bool)
    (oracle : Nat → Bool) (pre : List Event) : Outcome :=
  if oracle 0 then
    if output = "" then
      if oracle 1 then
        ⟨pre ++ [.request req, .play], 0⟩
      else
        ⟨pre ++ [.request req, .play, .err "Error playing audio"], 1⟩
    else
      if oracle 1 then
        let evs := pre ++ [.request req, .write output, .err ("Saved to " ++ output)]
        if speak then
          if oracle 2 then
            ⟨evs ++ [.play], 0⟩
          else
            ⟨evs ++ [.play, .err "Error playing audio"], 1⟩
        else
          ⟨evs, 0⟩
      else
        ⟨pre ++ [.request req, .err "Error saving file"], 1⟩
  else
    ⟨pre ++ [.request req, .err "Error synthesizing speech"], 1⟩

/-- The provider switch of the single-shot path (src/main.go lines
1023-1036): strict voice validation for OpenAI only; permissive
resolution for ElevenLabs and Deepgram. -/
def singleShot (p : Provider) (f : Flags) (apiKey voice model text : String)
    (oracle : Nat → Bool) (pre : List Event) : Outcome :=
  match p with
  | .openai =>
    if isValidOpenAIVoice voice then
      afterSynth (buildOpenAIRequest apiKey model voice text f.speed)
        f.output f.speak oracle pre
    else
      ⟨pre ++ [.err (invalidVoiceMsg voice)], 1⟩
  | .elevenlabs =>
    afterSynth
      (buildElevenLabsRequest apiKey model (resolveElevenLabsVoice voice) text
        f.speed f.stability f.similarityBoost)
      f.output f.speak oracle pre
  | .deepgram =>
    afterSynth (buildDeepgramRequest apiKey (resolveDeepgramVoice voice) text)
      f.output f.speak oracle pre

/-- Missing-credential error line (src/main.go line 942). -/
def missingKeyMsg (p : Provider) : String :=
  "Error: " ++ envVarFor p ++ " environment variable not set and --token not provided"

/-- Voice after provider-default resolution (src/main.go lines 902-911). -/
def effectiveVoice (p : Provider) (f : Flags) : String :=
  if f.voice = "" then defaultVoiceFor p else f.voice

/-- Model after provider-default resolution (src/main.go lines 912-922). -/
def effectiveModel (p : Provider) (f : Flags) : String :=
  if f.model = "" then defaultModelFor p else f.model

/-- API key resolution (src/main.go lines 925-935): the explicit
`--token` override wins; otherwise the provider's designated environment
variable is consulted. -/
def resolvedKey (p : Provider) (f : Flags) (env : String → String) : String :=
  if f.token = "" then env (envVarFor p) else f.token

/-- `main` for a validated provider `p`, from default resolution
(src/main.go line 901) to the end: voice/model defaults, API-key
resolution, speed validation, empty-text check, the `--all` branch,
then single-shot synthesis and output orchestration. -/
def runValidated (p : Provider) (f : Flags) (text : String)
    (env : String → String) (oracle : Nat → Bool) : Outcome :=
  let apiKey := resolvedKey p f env
  if apiKey = "" then
    ⟨[.err (missingKeyMsg p)], 1⟩
  else
    let sv := validateSpeed p f.speed
    if sv.2 then
      ⟨sv.1, 1⟩
    else if text = "" then
      ⟨sv.1 ++ [.err "Error: No text provided"], 1⟩
    else if f.allFlag then
      match p with
      | .openai =>
        ⟨sv.1 ++ demoAll apiKey (effectiveModel p f) text f.speed oracle openAIVoices 0, 0⟩
      | _ =>
        ⟨sv.1 ++ [.err "Error: --all flag is only supported for OpenAI provider"], 1⟩
    else
      singleShot p f apiKey (effectiveVoice p f) (effectiveModel p f) text oracle sv.1

/-- Provider-name rejection line (src/main.go line 897). -/
def invalidProviderMsg (s : String) : String :=
  "Error: Invalid provider " ++ s ++ ". Use openai, elevenlabs, or deepgram"

/-- The whole of `main` after flag parsing and the `help` check
(src/main.go lines 894-1058).  `text` is the already-resolved input text
(joined positional arguments, or trimmed stdin). -/
def runMain (f : Flags) (text : String) (env : String → String)
    (oracle : Nat → Bool) : Outcome :=
  match parseProvider (lowerStr f.provider) with
  | none => ⟨[.err (invalidProviderMsg (lowerStr f.provider))], 1⟩
  | some p => runValidated p f text env oracle

/-! ## Trace projections -/

/-- The dispatched synthesis requests of a trace, in order. -/
def requestsOf (evs : List Event) : List HTTPRequest :=
  evs.filterMap (fun e =>
    match e with
    | .request r => some r
    | _ => none)

/-- The requests dispatched by a run. -/
def Outcome.requests (o : Outcome) : List HTTPRequest := requestsOf o.events

/-- Look up a top-level field of a JSON body. -/
def jsonLookup (fields : List (String × Json)) (k : String) : Option Json :=
  match fields with
  | [] => none
  | (k2, v) :: rest => if k2 = k then some v else jsonLookup rest k

/-- The `voice` string field of a request body, when present. -/
def reqVoice (r : HTTPRequest) : Option String :=
  match jsonLookup r.body "voice" with
  | some (.str s) => some s
  | _ => none

/-- The voices of the dispatched requests of a trace (OpenAI bodies
carry a `voice` field; other bodies contribute nothing). -/
def reqVoicesOf (evs : List Event) : List String :=
  (requestsOf evs).filterMap reqVoice

/-- Whether a playback attempt occurs in a trace. -/
def playsIn (evs : List Event) : Bool :=
  evs.any (fun e =>
    match e with
    | .play => true
    | _ => false)

/-- Whether a completed write to `path` occurs in a trace. -/
def writesIn (evs : List Event) (path : String) : Bool :=
  evs.any (fun e =>
    match e with
    | .write q => q == path
    | _ => false)

/-- A concrete demo-all invocation: OpenAI provider, `--all`, explicit
token, default speed, text supplied. -/
def demoFlags : Flags :=
  ⟨"openai", "", "", "", 1, false, "k", true, 0.5, 0.75⟩

/-- A concrete `--all` invocation against ElevenLabs. -/
def elevenAllFlags : Flags :=
  ⟨"elevenlabs", "", "", "", 1, false, "k", true, 0.5, 0.75⟩

/-- A concrete single-shot Deepgram invocation with non-default speed. -/
def dgFlags : Flags :=
  ⟨"deepgram", "", "", "", 2, false, "k", false, 0.5, 0.75⟩

/-- A concrete single-shot OpenAI invocation with an invalid voice. -/
def ovFlags : Flags :=
  ⟨"openai", "badvoice", "", "", 1, false, "k", false, 0.5, 0.75⟩

/-- A concrete single-shot ElevenLabs invocation with a non-preset voice. -/
def elFlags : Flags :=
  ⟨"elevenlabs", "nonexistent-preset", "", "", 1, false, "k", false, 0.5, 0.75⟩

/-- A concrete plain single-shot OpenAI invocation (no output path). -/
def okFlags : Flags :=
  ⟨"openai", "", "", "", 1, false, "k", false, 0.5, 0.75⟩

/-- A concrete invocation with no token and no environment credential. -/
def noKeyFlags : Flags :=
  ⟨"openai", "", "", "", 1, false, "", false, 0.5, 0.75⟩

/-- A concrete single-shot OpenAI invocation writing to a file with the
speak flag also set. -/
def outSpeakFlags : Flags :=
  ⟨"openai", "", "", "out.mp3", 1, true, "k", false, 0.5, 0.75⟩

/-- Whether some line is printed to the error stream in a trace. -/
def hasErrIn (evs : List Event) : Bool :=
  evs.any (fun e =>
    match e with
    | .err _ => true
    | _ => false)

end Gospeak

namespace Gospeak

theorem requestsOf_append (a b : List Event) :
    requestsOf (a ++ b) = requestsOf a ++ requestsOf b :=
  List.filterMap_append a b _

theorem reqVoicesOf_append (a b : List Event) :
    reqVoicesOf (a ++ b) = reqVoicesOf a ++ reqVoicesOf b := by
  unfold reqVoicesOf
  rw [requestsOf_append, List.filterMap_append]

theorem reqVoice_buildOpenAI (key model voice text : String) (s : Rat) :
    reqVoice (buildOpenAIRequest key model voice text s) = some voice := by
  simp [reqVoice, buildOpenAIRequest, jsonLookup]

theorem demoVoice_reqVoices (key model text : String) (s : Rat) (oracle : Nat → Bool)
    (v : String) (k : Nat) :
    reqVoicesOf (demoVoice key model text s oracle v k).1 =
      if oracle k && oracle (k + 1) then [v, v] else [v] := by
  cases h0 : oracle k <;> cases h1 : oracle (k + 1) <;>
    cases h2 : oracle (k + 2) <;> cases h3 : oracle (k + 3) <;>
    simp [demoVoice, h0, h1, h2, h3, reqVoicesOf, requestsOf, reqVoice_buildOpenAI]

theorem demoAll_sublist (key model text : String) (s : Rat) (oracle : Nat → Bool)
    (vs : List String) :
    ∀ k, vs.Sublist (reqVoicesOf (demoAll key model text s oracle vs k)) := by
  induction vs with
  | nil => intro k; simp [demoAll, reqVoicesOf, requestsOf]
  | cons v vs ih =>
    intro k
    rw [demoAll, reqVoicesOf_append, demoVoice_reqVoices]
    by_cases h : (oracle k && oracle (k + 1)) = true
    · rw [if_pos h]
      exact List.Sublist.cons₂ v (List.Sublist.cons v (ih _))
    · rw [if_neg h]
      exact List.Sublist.cons₂ v (ih _)

theorem demoAll_length (key model text : String) (s : Rat) (oracle : Nat → Bool)
    (vs : List String) :
    ∀ k, vs.length ≤ (reqVoicesOf (demoAll key model text s oracle vs k)).length ∧
      (reqVoicesOf (demoAll key model text s oracle vs k)).length ≤ 2 * vs.length := by
  induction vs with
  | nil => intro k; simp [demoAll, reqVoicesOf, requestsOf]
  | cons v vs ih =>
    intro k
    rw [demoAll, reqVoicesOf_append, demoVoice_reqVoices]
    have := ih (demoVoice key model text s oracle v k).2
    by_cases h : (oracle k && oracle (k + 1)) = true
    · rw [if_pos h]
      simp only [List.length_append, List.length_cons, List.length_nil]
      omega
    · rw [if_neg h]
      simp only [List.length_append, List.length_cons, List.length_nil]
      omega

theorem demoAll_perfect (key model text : String) (s : Rat) (oracle : Nat → Bool)
    (hor : ∀ j, oracle j = true) (vs : List String) :
    ∀ k, reqVoicesOf (demoAll key model text s oracle vs k) =
      vs.flatMap (fun v => [v, v]) := by
  induction vs with
  | nil => intro k; simp [demoAll, reqVoicesOf, requestsOf]
  | cons v vs ih =>
    intro k
    rw [demoAll, reqVoicesOf_append, demoVoice_reqVoices]
    rw [hor k, hor (k + 1)]
    simp [ih, List.flatMap_cons]

end Gospeak

namespace Gospeak

theorem validateSpeed_openai_ok {s : Rat} (h1 : 0.25 ≤ s) (h2 : s ≤ 4.0) :
    validateSpeed .openai s = ([], false) := by
  simp only [validateSpeed]
  rw [if_neg]
  push_neg
  exact ⟨by linarith, by linarith⟩

theorem validateSpeed_openai_fatal {s : Rat} (h : s < 0.25 ∨ 4.0 < s) :
    validateSpeed .openai s = ([.err openAISpeedMsg], true) := by
  simp only [validateSpeed]
  rw [if_pos h]

theorem validateSpeed_elevenlabs_ok {s : Rat} (h1 : 0.7 ≤ s) (h2 : s ≤ 1.2) :
    validateSpeed .elevenlabs s = ([], false) := by
  simp only [validateSpeed]
  rw [if_neg]
  push_neg
  exact ⟨by linarith, by linarith⟩

theorem validateSpeed_elevenlabs_fatal {s : Rat} (h : s < 0.7 ∨ 1.2 < s) :
    validateSpeed .elevenlabs s = ([.err elevenLabsSpeedMsg], true) := by
  simp only [validateSpeed]
  rw [if_pos h]

theorem validateSpeed_deepgram_snd (s : Rat) : (validateSpeed .deepgram s).2 = false := by
  simp only [validateSpeed]
  split <;> rfl

theorem validateSpeed_deepgram_warn {s : Rat} (h : s ≠ defaultSpeed) :
    validateSpeed .deepgram s = ([.err deepgramSpeedWarn], false) := by
  simp only [validateSpeed]
  rw [if_pos h]

theorem validateSpeed_requests (p : Provider) (s : Rat) :
    requestsOf (validateSpeed p s).1 = [] := by
  cases p <;> simp only [validateSpeed] <;> split <;> simp [requestsOf]

theorem validateSpeed_noPlay (p : Provider) (s : Rat) :
    playsIn (validateSpeed p s).1 = false := by
  cases p <;> simp only [validateSpeed] <;> split <;> simp [playsIn]

theorem validateSpeed_noWrite (p : Provider) (s : Rat) (q : String) :
    writesIn (validateSpeed p s).1 q = false := by
  cases p <;> simp only [validateSpeed] <;> split <;> simp [writesIn]

theorem parseProvider_lower_openai : parseProvider (lowerStr "openai") = some .openai := rfl

theorem parseProvider_lower_elevenlabs :
    parseProvider (lowerStr "elevenlabs") = some .elevenlabs := rfl

theorem parseProvider_lower_deepgram :
    parseProvider (lowerStr "deepgram") = some .deepgram := rfl

theorem runMain_missing_key {p : Provider} {f : Flags} {text : String}
    {env : String → String} (oracle : Nat → Bool)
    (hp : parseProvider (lowerStr f.provider) = some p)
    (hkey : resolvedKey p f env = "") :
    runMain f text env oracle = ⟨[.err (missingKeyMsg p)], 1⟩ := by
  simp only [runMain, hp]
  simp only [runValidated]
  rw [if_pos hkey]

theorem runMain_demo {f : Flags} {text : String} {env : String → String}
    (oracle : Nat → Bool)
    (hp : parseProvider (lowerStr f.provider) = some .openai)
    (hall : f.allFlag = true)
    (hkey : resolvedKey .openai f env ≠ "")
    (hs1 : 0.25 ≤ f.speed) (hs2 : f.speed ≤ 4.0)
    (ht : text ≠ "") :
    runMain f text env oracle =
      ⟨demoAll (resolvedKey .openai f env) (effectiveModel .openai f) text
          f.speed oracle openAIVoices 0, 0⟩ := by
  simp only [runMain, hp]
  simp only [runValidated]
  rw [if_neg hkey, validateSpeed_openai_ok hs1 hs2]
  simp [ht, hall]

theorem runMain_single {p : Provider} {f : Flags} {text : String}
    {env : String → String} (oracle : Nat → Bool)
    (hp : parseProvider (lowerStr f.provider) = some p)
    (hall : f.allFlag = false)
    (hkey : resolvedKey p f env ≠ "")
    (hsv : (validateSpeed p f.speed).2 = false)
    (ht : text ≠ "") :
    runMain f text env oracle =
      singleShot p f (resolvedKey p f env) (effectiveVoice p f)
        (effectiveModel p f) text oracle (validateSpeed p f.speed).1 := by
  simp only [runMain, hp]
  simp only [runValidated]
  rw [if_neg hkey]
  simp [hsv, ht, hall]

end Gospeak

namespace Gospeak

theorem parseProvider_openai_iff {s : String} :
    parseProvider s = some Provider.openai ↔ s = "openai" := by
  constructor
  · intro h
    by_contra hs
    unfold parseProvider at h
    rw [if_neg hs] at h
    by_cases h2 : s = "elevenlabs"
    · rw [if_pos h2] at h
      exact Provider.noConfusion (Option.some.inj h)
    · rw [if_neg h2] at h
      by_cases h3 : s = "deepgram"
      · rw [if_pos h3] at h
        exact Provider.noConfusion (Option.some.inj h)
      · rw [if_neg h3] at h
        exact Option.noConfusion h
  · intro h
    rw [h]
    rfl

/-- Claim C1 (amended): in demo-all mode with the OpenAI provider, for
every outcome oracle, the synthesis attempts are scheduled as follows:
every preset voice's announcement attempt is made in the declared table
order (no earlier failure prevents a later voice's attempts), the total
number of attempts lies between N and 2N, and when every attempt
succeeds exactly 2N attempts are made, announcement then utterance per
voice, in table order. -/
theorem C1_demo_attempt_schedule (f : Flags) (text : String)
    (env : String → String) (oracle : Nat → Bool)
    (hp : parseProvider (lowerStr f.provider) = some .openai)
    (hall : f.allFlag = true)
    (hkey : resolvedKey .openai f env ≠ "")
    (hs1 : 0.25 ≤ f.speed) (hs2 : f.speed ≤ 4.0) (ht : text ≠ "") :
    openAIVoices.Sublist (reqVoicesOf (runMain f text env oracle).events) ∧
    openAIVoices.length ≤ (reqVoicesOf (runMain f text env oracle).events).length ∧
    (reqVoicesOf (runMain f text env oracle).events).length ≤ 2 * openAIVoices.length ∧
    ((∀ j, oracle j = true) →
      reqVoicesOf (runMain f text env oracle).events =
        openAIVoices.flatMap (fun v => [v, v])) := by
  rw [runMain_demo oracle hp hall hkey hs1 hs2 ht]
  exact ⟨demoAll_sublist _ _ _ _ _ _ _,
    (demoAll_length _ _ _ _ _ _ _).1,
    (demoAll_length _ _ _ _ _ _ _).2,
    fun hor => demoAll_perfect _ _ _ _ _ hor _ _⟩

/-- Claim C1 witness: the schedule theorem applied to a concrete
invocation with the all-success oracle. -/
theorem C1_demo_attempt_schedule_witness :
    openAIVoices.Sublist
      (reqVoicesOf (runMain demoFlags "hello" (fun _ => "") (fun _ => true)).events) ∧
    openAIVoices.length ≤
      (reqVoicesOf (runMain demoFlags "hello" (fun _ => "") (fun _ => true)).events).length ∧
    (reqVoicesOf (runMain demoFlags "hello" (fun _ => "") (fun _ => true)).events).length ≤
      2 * openAIVoices.length ∧
    ((∀ j, (fun _ => true : Nat → Bool) j = true) →
      reqVoicesOf (runMain demoFlags "hello" (fun _ => "") (fun _ => true)).events =
        openAIVoices.flatMap (fun v => [v, v])) :=
  C1_demo_attempt_schedule demoFlags "hello" (fun _ => "") (fun _ => true)
    (by decide) rfl (by decide) (by norm_num [demoFlags]) (by norm_num [demoFlags])
    (by decide)

/-- Claim C1 counterexample: with the oracle failing every attempt, the
very same demo-all invocation performs 6 synthesis attempts, not
2 × 6 = 12: a failed announcement for a voice prevents that voice's
main-utterance attempt. -/
theorem C1_counterexample :
    ((runMain demoFlags "hello" (fun _ => "") (fun _ => false)).requests).length = 6 ∧
    ((runMain demoFlags "hello" (fun _ => "") (fun _ => false)).requests).length ≠
      2 * openAIVoices.length := by
  have ho : runMain demoFlags "hello" (fun _ => "") (fun _ => false) =
      ⟨demoAll (resolvedKey .openai demoFlags (fun _ => ""))
        (effectiveModel .openai demoFlags) "hello" demoFlags.speed
        (fun _ => false) openAIVoices 0, 0⟩ :=
    runMain_demo (fun _ => false) (by decide) rfl (by decide)
      (by norm_num [demoFlags]) (by norm_num [demoFlags]) (by decide)
  rw [ho]
  have hreq : (Outcome.mk (demoAll (resolvedKey .openai demoFlags (fun _ => ""))
      (effectiveModel .openai demoFlags) "hello" demoFlags.speed
      (fun _ => false) openAIVoices 0) 0).requests.length = 6 := by
    simp [Outcome.requests, demoAll, demoVoice, openAIVoices, requestsOf]
  exact ⟨hreq, by rw [hreq]; decide⟩

theorem runMain_all_non_openai (f : Flags) (text : String)
    (env : String → String) (oracle : Nat → Bool)
    (hall : f.allFlag = true)
    (hp : lowerStr f.provider ≠ "openai") :
    (runMain f text env oracle).exitCode = 1 ∧
    (runMain f text env oracle).requests = [] := by
  cases hpp : parseProvider (lowerStr f.provider) with
  | none =>
    simp [runMain, hpp, Outcome.requests, requestsOf]
  | some p =>
    have hpo : p ≠ .openai := by
      intro h
      subst h
      exact hp (parseProvider_openai_iff.mp hpp)
    by_cases hk : resolvedKey p f env = ""
    · rw [runMain_missing_key oracle hpp hk]
      exact ⟨rfl, rfl⟩
    · by_cases hsv : (validateSpeed p f.speed).2 = true
      · have ho : runMain f text env oracle = ⟨(validateSpeed p f.speed).1, 1⟩ := by
          simp only [runMain, hpp, runValidated]
          rw [if_neg hk, if_pos hsv]
        rw [ho]
        exact ⟨rfl, validateSpeed_requests p f.speed⟩
      · by_cases htx : text = ""
        · have ho : runMain f text env oracle =
              ⟨(validateSpeed p f.speed).1 ++ [.err "Error: No text provided"], 1⟩ := by
            simp only [runMain, hpp, runValidated]
            rw [if_neg hk, if_neg hsv, if_pos htx]
          rw [ho]
          refine ⟨rfl, ?_⟩
          show requestsOf _ = []
          rw [requestsOf_append, validateSpeed_requests]
          rfl
        · have ho : runMain f text env oracle =
              ⟨(validateSpeed p f.speed).1 ++
                [.err "Error: --all flag is only supported for OpenAI provider"], 1⟩ := by
            cases p with
            | openai => exact absurd rfl hpo
            | elevenlabs =>
              simp only [runMain, hpp, runValidated]
              rw [if_neg hk, if_neg hsv, if_neg htx, if_pos hall]
            | deepgram =>
              simp only [runMain, hpp, runValidated]
              rw [if_neg hk, if_neg hsv, if_neg htx, if_pos hall]
          rw [ho]
          refine ⟨rfl, ?_⟩
          show requestsOf _ = []
          rw [requestsOf_append, validateSpeed_requests]
          rfl

/-- Claim C7: invoking `--all` with any provider whose normalized name is
not `openai` exits with code 1 and dispatches no synthesis request at
all, whatever the rest of the configuration. -/
theorem C7_all_requires_openai (f : Flags) (text : String)
    (env : String → String) (oracle : Nat → Bool)
    (hall : f.allFlag = true)
    (hp : lowerStr f.provider ≠ "openai") :
    (runMain f text env oracle).exitCode = 1 ∧
    (runMain f text env oracle).requests = [] :=
  runMain_all_non_openai f text env oracle hall hp

/-- Claim C7 witness: the rejection theorem applied to a concrete
ElevenLabs `--all` invocation. -/
theorem C7_all_requires_openai_witness :
    (runMain elevenAllFlags "hi" (fun _ => "") (fun _ => true)).exitCode = 1 ∧
    (runMain elevenAllFlags "hi" (fun _ => "") (fun _ => true)).requests = [] :=
  C7_all_requires_openai elevenAllFlags "hi" (fun _ => "") (fun _ => true)
    rfl (by decide)

/-- Claim C10: when `--all` is set with the OpenAI provider, the voice
flag is never consulted: the run is identical for any two voice values
(so an invalid voice is never rejected), and under a valid configuration
the demo proceeds through every preset voice with exit code 0. -/
theorem C10_all_ignores_voice (f : Flags) (text : String)
    (env : String → String) (oracle : Nat → Bool)
    (hp : parseProvider (lowerStr f.provider) = some .openai)
    (hall : f.allFlag = true) :
    (∀ v1 v2 : String,
      runMain { f with voice := v1 } text env oracle =
        runMain { f with voice := v2 } text env oracle) ∧
    (resolvedKey .openai f env ≠ "" → 0.25 ≤ f.speed → f.speed ≤ 4.0 → text ≠ "" →
      (runMain f text env oracle).exitCode = 0 ∧
      openAIVoices.Sublist (reqVoicesOf (runMain f text env oracle).events)) := by
  constructor
  · intro v1 v2
    simp [runMain, runValidated, resolvedKey, effectiveModel, hp, hall]
  · intro hkey hs1 hs2 ht
    rw [runMain_demo oracle hp hall hkey hs1 hs2 ht]
    exact ⟨rfl, demoAll_sublist _ _ _ _ _ _ _⟩

/-- Claim C10 witness: a concrete `--all` invocation with a nonsense
voice value behaves exactly like one with a valid voice and exits 0. -/
theorem C10_all_ignores_voice_witness :
    (∀ v1 v2 : String,
      runMain { demoFlags with voice := v1 } "hello" (fun _ => "") (fun _ => true) =
        runMain { demoFlags with voice := v2 } "hello" (fun _ => "") (fun _ => true)) ∧
    (resolvedKey .openai demoFlags (fun _ => "") ≠ "" → (0.25 : Rat) ≤ demoFlags.speed →
      demoFlags.speed ≤ 4.0 → "hello" ≠ "" →
      (runMain demoFlags "hello" (fun _ => "") (fun _ => true)).exitCode = 0 ∧
      openAIVoices.Sublist
        (reqVoicesOf (runMain demoFlags "hello" (fun _ => "") (fun _ => true)).events)) :=
  C10_all_ignores_voice demoFlags "hello" (fun _ => "") (fun _ => true) (by decide) rfl

end Gospeak

namespace Gospeak

theorem afterSynth_requests (req : HTTPRequest) (output : String) (speak : Bool)
    (oracle : Nat → Bool) (pre : List Event) :
    (afterSynth req output speak oracle pre).requests = requestsOf pre ++ [req] := by
  unfold afterSynth Outcome.requests
  repeat' split
  all_goals simp [requestsOf_append, requestsOf]

theorem afterSynth_events_pre (req : HTTPRequest) (output : String) (speak : Bool)
    (oracle : Nat → Bool) (pre : List Event) :
    ∃ tail, (afterSynth req output speak oracle pre).events = pre ++ tail := by
  unfold afterSynth
  repeat' split
  all_goals first
  | exact ⟨_, rfl⟩
  | exact ⟨_, List.append_assoc _ _ _⟩

theorem afterSynth_exit_one (req : HTTPRequest) (output : String) (speak : Bool)
    (oracle : Nat → Bool) (pre : List Event) (h : oracle 0 = false) :
    (afterSynth req output speak oracle pre).exitCode = 1 := by
  unfold afterSynth
  rw [h]
  rfl

theorem afterSynth_success_shape (req : HTTPRequest) (output : String) (speak : Bool)
    (oracle : Nat → Bool) (pre : List Event) (hor : ∀ j, oracle j = true) :
    (afterSynth req output speak oracle pre).events =
      (if output = "" then pre ++ [.request req, .play]
       else if speak then
         pre ++ [.request req, .write output, .err ("Saved to " ++ output), .play]
       else pre ++ [.request req, .write output, .err ("Saved to " ++ output)]) ∧
    (afterSynth req output speak oracle pre).exitCode = 0 := by
  unfold afterSynth
  simp only [hor 0, hor 1, hor 2, if_true]
  by_cases ho : output = ""
  · simp [ho]
  · by_cases hsp : speak = true
    · simp [ho, hsp]
    · simp [ho, hsp]

end Gospeak

namespace Gospeak

/-- Claim C2: speed validation is provider-specific.  OpenAI passes
exactly the closed interval [0.25, 4.0] and any speed strictly outside
it is fatal before dispatch (exit 1, no request); ElevenLabs likewise
for [0.7, 1.2]; Deepgram never fails on speed, any non-default speed
only prints a warning, execution continues, and the dispatched request
body carries no speed field (only text). -/
theorem C2_speed_validation :
    (∀ s : Rat, (validateSpeed .openai s).2 = false ↔ (0.25 ≤ s ∧ s ≤ 4.0)) ∧
    (∀ s : Rat, (validateSpeed .elevenlabs s).2 = false ↔ (0.7 ≤ s ∧ s ≤ 1.2)) ∧
    (∀ s : Rat, (validateSpeed .deepgram s).2 = false) ∧
    (∀ s : Rat, s ≠ defaultSpeed →
      validateSpeed .deepgram s = ([.err deepgramSpeedWarn], false)) ∧
    (∀ (f : Flags) (text : String) (env : String → String) (oracle : Nat → Bool),
      parseProvider (lowerStr f.provider) = some .openai →
      resolvedKey .openai f env ≠ "" → (f.speed < 0.25 ∨ 4.0 < f.speed) →
      (runMain f text env oracle).exitCode = 1 ∧
        (runMain f text env oracle).requests = []) ∧
    (∀ (f : Flags) (text : String) (env : String → String) (oracle : Nat → Bool),
      parseProvider (lowerStr f.provider) = some .elevenlabs →
      resolvedKey .elevenlabs f env ≠ "" → (f.speed < 0.7 ∨ 1.2 < f.speed) →
      (runMain f text env oracle).exitCode = 1 ∧
        (runMain f text env oracle).requests = []) ∧
    (∀ (f : Flags) (text : String) (env : String → String) (oracle : Nat → Bool),
      parseProvider (lowerStr f.provider) = some .deepgram →
      resolvedKey .deepgram f env ≠ "" → f.allFlag = false → text ≠ "" →
      f.speed ≠ defaultSpeed →
      Event.err deepgramSpeedWarn ∈ (runMain f text env oracle).events ∧
        (runMain f text env oracle).requests =
          [buildDeepgramRequest (resolvedKey .deepgram f env)
            (resolveDeepgramVoice (effectiveVoice .deepgram f)) text] ∧
        (buildDeepgramRequest (resolvedKey .deepgram f env)
            (resolveDeepgramVoice (effectiveVoice .deepgram f)) text).body.map
          Prod.fst = ["text"]) := by
  refine ⟨?_, ?_, validateSpeed_deepgram_snd, ?_, ?_, ?_, ?_⟩
  · intro s
    constructor
    · intro h
      by_contra hc
      push_neg at hc
      rcases lt_or_le s 0.25 with hlt | hge
      · rw [validateSpeed_openai_fatal (Or.inl hlt)] at h
        simp at h
      · have h4 : 4.0 < s := hc hge
        rw [validateSpeed_openai_fatal (Or.inr h4)] at h
        simp at h
    · rintro ⟨h1, h2⟩
      rw [validateSpeed_openai_ok h1 h2]
  · intro s
    constructor
    · intro h
      by_contra hc
      push_neg at hc
      rcases lt_or_le s 0.7 with hlt | hge
      · rw [validateSpeed_elevenlabs_fatal (Or.inl hlt)] at h
        simp at h
      · have h4 : 1.2 < s := hc hge
        rw [validateSpeed_elevenlabs_fatal (Or.inr h4)] at h
        simp at h
    · rintro ⟨h1, h2⟩
      rw [validateSpeed_elevenlabs_ok h1 h2]
  · intro s h
    exact validateSpeed_deepgram_warn h
  · intro f text env oracle hp hkey hbad
    have ho : runMain f text env oracle = ⟨[.err openAISpeedMsg], 1⟩ := by
      simp only [runMain, hp, runValidated]
      rw [if_neg hkey, validateSpeed_openai_fatal hbad]
      simp
    rw [ho]
    exact ⟨rfl, rfl⟩
  · intro f text env oracle hp hkey hbad
    have ho : runMain f text env oracle = ⟨[.err elevenLabsSpeedMsg], 1⟩ := by
      simp only [runMain, hp, runValidated]
      rw [if_neg hkey, validateSpeed_elevenlabs_fatal hbad]
      simp
    rw [ho]
    exact ⟨rfl, rfl⟩
  · intro f text env oracle hp hkey hall htx hs
    have ho : runMain f text env oracle =
        singleShot .deepgram f (resolvedKey .deepgram f env)
          (effectiveVoice .deepgram f) (effectiveModel .deepgram f) text oracle
          (validateSpeed .deepgram f.speed).1 :=
      runMain_single oracle hp hall hkey (validateSpeed_deepgram_snd f.speed) htx
    rw [ho]
    rw [validateSpeed_deepgram_warn hs]
    simp only [singleShot]
    refine ⟨?_, ?_, rfl⟩
    · obtain ⟨tail, htail⟩ := afterSynth_events_pre
        (buildDeepgramRequest (resolvedKey .deepgram f env)
          (resolveDeepgramVoice (effectiveVoice .deepgram f)) text)
        f.output f.speak oracle [.err deepgramSpeedWarn]
      rw [htail]
      exact List.mem_append_left _ (List.mem_singleton.mpr rfl)
    · rw [afterSynth_requests]
      rfl

end Gospeak

namespace Gospeak

theorem deepgram_single_requests (f : Flags) (text : String) (env : String → String)
    (oracle : Nat → Bool)
    (hp : parseProvider (lowerStr f.provider) = some .deepgram)
    (hall : f.allFlag = false)
    (hkey : resolvedKey .deepgram f env ≠ "") (htx : text ≠ "") :
    (runMain f text env oracle).requests =
      [buildDeepgramRequest (resolvedKey .deepgram f env)
        (resolveDeepgramVoice (effectiveVoice .deepgram f)) text] := by
  rw [runMain_single oracle hp hall hkey (validateSpeed_deepgram_snd f.speed) htx]
  simp only [singleShot]
  rw [afterSynth_requests, validateSpeed_requests]
  rfl

/-- Claim C2 witness: the validation theorem applied concretely — speed 1
passes for OpenAI, boundary 4.0 passes, 0.2 would be fatal within a full
OpenAI run, and a Deepgram run at speed 2 warns yet still dispatches a
speed-free request. -/
theorem C2_speed_validation_witness :
    (validateSpeed .openai 1).2 = false ∧
    (validateSpeed .openai 4.0).2 = false ∧
    validateSpeed .deepgram 2 = ([.err deepgramSpeedWarn], false) ∧
    Event.err deepgramSpeedWarn ∈
      (runMain dgFlags "hi" (fun _ => "") (fun _ => true)).events :=
  ⟨(C2_speed_validation.1 1).mpr (by norm_num),
   (C2_speed_validation.1 4.0).mpr (by norm_num),
   C2_speed_validation.2.2.2.1 2 (by norm_num [defaultSpeed]),
   (C2_speed_validation.2.2.2.2.2.2 dgFlags "hi" (fun _ => "") (fun _ => true)
     (by decide) (by decide) rfl (by decide) (by norm_num [dgFlags, defaultSpeed])).1⟩

/-- Claim C3: voice resolution is the case-insensitive preset lookup for
ElevenLabs and Deepgram — a hit returns the table identifier, a miss
returns the input unchanged — every preset row resolves to its documented
identifier, and the OpenAI request carries the voice name itself
unchanged (identity resolution). -/
theorem C3_voice_resolution :
    (∀ (s id : String), elevenLabsVoices.lookup (lowerStr s) = some id →
      resolveElevenLabsVoice s = id) ∧
    (∀ s : String, elevenLabsVoices.lookup (lowerStr s) = none →
      resolveElevenLabsVoice s = s) ∧
    (∀ (s id : String), deepgramVoices.lookup (lowerStr s) = some id →
      resolveDeepgramVoice s = id) ∧
    (∀ s : String, deepgramVoices.lookup (lowerStr s) = none →
      resolveDeepgramVoice s = s) ∧
    (∀ p ∈ elevenLabsVoices, resolveElevenLabsVoice p.1 = p.2) ∧
    (∀ p ∈ deepgramVoices, resolveDeepgramVoice p.1 = p.2) ∧
    (∀ (apiKey model voice text : String) (s : Rat),
      reqVoice (buildOpenAIRequest apiKey model voice text s) = some voice) := by
  refine ⟨?_, ?_, ?_, ?_, ?_, ?_, reqVoice_buildOpenAI⟩
  · intro s id h
    unfold resolveElevenLabsVoice
    rw [h]
  · intro s h
    unfold resolveElevenLabsVoice
    rw [h]
  · intro s id h
    unfold resolveDeepgramVoice
    rw [h]
  · intro s h
    unfold resolveDeepgramVoice
    rw [h]
  · decide
  · decide

/-- Claim C3 witness: the resolution theorem applied to concrete inputs —
a case-varied preset, a passthrough custom id for each permissive
provider, and the OpenAI identity. -/
theorem C3_voice_resolution_witness :
    resolveElevenLabsVoice "Rachel" = "21m00Tcm4TlvDq8ikWAM" ∧
    resolveElevenLabsVoice "custom-voice-id" = "custom-voice-id" ∧
    resolveDeepgramVoice "ZEUS" = "aura-zeus-en" ∧
    resolveDeepgramVoice "aura-asteria-en" = "aura-asteria-en" ∧
    reqVoice (buildOpenAIRequest "k" "tts-1-hd" "nova" "hi" 1) = some "nova" :=
  ⟨C3_voice_resolution.1 "Rachel" _ (by decide),
   C3_voice_resolution.2.1 "custom-voice-id" (by decide),
   C3_voice_resolution.2.2.1 "ZEUS" _ (by decide),
   C3_voice_resolution.2.2.2.1 "aura-asteria-en" (by decide),
   C3_voice_resolution.2.2.2.2.2.2 "k" "tts-1-hd" "nova" "hi" 1⟩

/-- Claim C4: strict voice validation applies only to OpenAI.  In
single-shot mode an OpenAI voice outside the preset list is fatal before
any request is built (exit 1, no request); for ElevenLabs and Deepgram
every voice string is accepted — exactly one request is dispatched,
built from the resolver's output, with no local rejection. -/
theorem C4_strict_voice_validation :
    (∀ (f : Flags) (text : String) (env : String → String) (oracle : Nat → Bool),
      parseProvider (lowerStr f.provider) = some .openai → f.allFlag = false →
      resolvedKey .openai f env ≠ "" → 0.25 ≤ f.speed → f.speed ≤ 4.0 → text ≠ "" →
      isValidOpenAIVoice (effectiveVoice .openai f) = false →
      (runMain f text env oracle).exitCode = 1 ∧
        (runMain f text env oracle).requests = []) ∧
    (∀ (f : Flags) (text : String) (env : String → String) (oracle : Nat → Bool),
      parseProvider (lowerStr f.provider) = some .elevenlabs → f.allFlag = false →
      resolvedKey .elevenlabs f env ≠ "" → 0.7 ≤ f.speed → f.speed ≤ 1.2 → text ≠ "" →
      (runMain f text env oracle).requests =
        [buildElevenLabsRequest (resolvedKey .elevenlabs f env)
          (effectiveModel .elevenlabs f)
          (resolveElevenLabsVoice (effectiveVoice .elevenlabs f)) text f.speed
          f.stability f.similarityBoost]) ∧
    (∀ (f : Flags) (text : String) (env : String → String) (oracle : Nat → Bool),
      parseProvider (lowerStr f.provider) = some .deepgram → f.allFlag = false →
      resolvedKey .deepgram f env ≠ "" → text ≠ "" →
      (runMain f text env oracle).requests =
        [buildDeepgramRequest (resolvedKey .deepgram f env)
          (resolveDeepgramVoice (effectiveVoice .deepgram f)) text]) := by
  refine ⟨?_, ?_, ?_⟩
  · intro f text env oracle hp hall hkey hs1 hs2 htx hv
    have hsv : (validateSpeed .openai f.speed).2 = false := by
      rw [validateSpeed_openai_ok hs1 hs2]
    rw [runMain_single oracle hp hall hkey hsv htx]
    simp only [singleShot, hv, Bool.false_eq_true, if_false]
    refine ⟨trivial, ?_⟩
    show requestsOf _ = []
    rw [requestsOf_append, validateSpeed_requests]
    rfl
  · intro f text env oracle hp hall hkey hs1 hs2 htx
    have hsv : (validateSpeed .elevenlabs f.speed).2 = false := by
      rw [validateSpeed_elevenlabs_ok hs1 hs2]
    rw [runMain_single oracle hp hall hkey hsv htx]
    simp only [singleShot]
    rw [afterSynth_requests, validateSpeed_requests]
    rfl
  · intro f text env oracle hp hall hkey htx
    exact deepgram_single_requests f text env oracle hp hall hkey htx

/-- Claim C4 witness: the asymmetry theorem applied concretely — the
invalid OpenAI voice `badvoice` is rejected with no request, while
ElevenLabs dispatches a request for the non-preset voice
`nonexistent-preset`. -/
theorem C4_strict_voice_validation_witness :
    ((runMain ovFlags "hi" (fun _ => "") (fun _ => true)).exitCode = 1 ∧
      (runMain ovFlags "hi" (fun _ => "") (fun _ => true)).requests = []) ∧
    (runMain elFlags "hi" (fun _ => "") (fun _ => true)).requests =
      [buildElevenLabsRequest (resolvedKey .elevenlabs elFlags (fun _ => ""))
        (effectiveModel .elevenlabs elFlags)
        (resolveElevenLabsVoice (effectiveVoice .elevenlabs elFlags)) "hi"
        elFlags.speed elFlags.stability elFlags.similarityBoost] :=
  ⟨C4_strict_voice_validation.1 ovFlags "hi" (fun _ => "") (fun _ => true)
    (by decide) rfl (by decide) (by norm_num [ovFlags]) (by norm_num [ovFlags])
    (by decide) (by decide),
   C4_strict_voice_validation.2.1 elFlags "hi" (fun _ => "") (fun _ => true)
    (by decide) rfl (by decide) (by norm_num [elFlags]) (by norm_num [elFlags])
    (by decide)⟩

/-- Claim C8: the Deepgram request descriptor has a JSON body holding
only the text field, carries the resolved voice/model and the mp3
encoding as URL query parameters, uses a token-style Authorization
header, and the full run dispatches exactly that descriptor. -/
theorem C8_deepgram_request_shape :
    (∀ apiKey voiceModel text : String,
      (buildDeepgramRequest apiKey voiceModel text).body = [("text", Json.str text)] ∧
      (buildDeepgramRequest apiKey voiceModel text).url =
        deepgramAPIURL ++ "?model=" ++ voiceModel ++ "&encoding=mp3" ∧
      (buildDeepgramRequest apiKey voiceModel text).headers =
        [("Content-Type", "application/json"),
         ("Authorization", "Token " ++ apiKey)]) ∧
    (∀ (f : Flags) (text : String) (env : String → String) (oracle : Nat → Bool),
      parseProvider (lowerStr f.provider) = some .deepgram → f.allFlag = false →
      resolvedKey .deepgram f env ≠ "" → text ≠ "" →
      (runMain f text env oracle).requests =
        [buildDeepgramRequest (resolvedKey .deepgram f env)
          (resolveDeepgramVoice (effectiveVoice .deepgram f)) text]) := by
  refine ⟨fun apiKey voiceModel text => ⟨rfl, rfl, rfl⟩, ?_⟩
  intro f text env oracle hp hall hkey htx
  exact deepgram_single_requests f text env oracle hp hall hkey htx

/-- Claim C8 witness: the shape theorem applied to a concrete Deepgram
run. -/
theorem C8_deepgram_request_shape_witness :
    (buildDeepgramRequest "k" "aura-luna-en" "hi").body = [("text", Json.str "hi")] ∧
    (runMain dgFlags "hi" (fun _ => "") (fun _ => true)).requests =
      [buildDeepgramRequest (resolvedKey .deepgram dgFlags (fun _ => ""))
        (resolveDeepgramVoice (effectiveVoice .deepgram dgFlags)) "hi"] :=
  ⟨(C8_deepgram_request_shape.1 "k" "aura-luna-en" "hi").1,
   C8_deepgram_request_shape.2 dgFlags "hi" (fun _ => "") (fun _ => true)
    (by decide) rfl (by decide) (by decide)⟩

end Gospeak

namespace Gospeak

theorem playsIn_append (a b : List Event) :
    playsIn (a ++ b) = (playsIn a || playsIn b) :=
  List.any_append

theorem writesIn_append (a b : List Event) (q : String) :
    writesIn (a ++ b) q = (writesIn a q || writesIn b q) :=
  List.any_append

theorem hasErrIn_append (a b : List Event) :
    hasErrIn (a ++ b) = (hasErrIn a || hasErrIn b) :=
  List.any_append

theorem validateSpeed_snd_err (p : Provider) (s : Rat)
    (h : (validateSpeed p s).2 = true) :
    hasErrIn (validateSpeed p s).1 = true := by
  cases p <;> simp only [validateSpeed] at h ⊢ <;> split at h <;>
    simp_all [hasErrIn]

theorem singleShot_afterSynth (p : Provider) (f : Flags)
    (apiKey voice model text : String) (oracle : Nat → Bool) (pre : List Event)
    (hv : p = .openai → isValidOpenAIVoice voice = true) :
    ∃ req, singleShot p f apiKey voice model text oracle pre =
      afterSynth req f.output f.speak oracle pre := by
  cases p with
  | openai =>
    exact ⟨buildOpenAIRequest apiKey model voice text f.speed,
      by simp only [singleShot, hv rfl, if_true]⟩
  | elevenlabs => exact ⟨_, rfl⟩
  | deepgram => exact ⟨_, rfl⟩

theorem afterSynth_play_fail (req : HTTPRequest) (speak : Bool)
    (oracle : Nat → Bool) (pre : List Event)
    (h0 : oracle 0 = true) (h1 : oracle 1 = false) :
    (afterSynth req "" speak oracle pre).exitCode = 1 := by
  unfold afterSynth
  rw [h0, h1]
  rfl

theorem afterSynth_speak_play_fail (req : HTTPRequest) (output : String)
    (oracle : Nat → Bool) (pre : List Event)
    (ho : output ≠ "") (h0 : oracle 0 = true) (h1 : oracle 1 = true)
    (h2 : oracle 2 = false) :
    (afterSynth req output true oracle pre).exitCode = 1 := by
  unfold afterSynth
  rw [h0, if_neg ho, h1, h2]
  rfl

theorem afterSynth_err_or_zero (req : HTTPRequest) (output : String)
    (speak : Bool) (oracle : Nat → Bool) (pre : List Event) :
    (afterSynth req output speak oracle pre).exitCode = 0 ∨
      hasErrIn (afterSynth req output speak oracle pre).events = true := by
  unfold afterSynth
  repeat' split
  all_goals first
  | exact Or.inl rfl
  | (right
     simp [hasErrIn_append, hasErrIn])

theorem afterSynth_orchestration (req : HTTPRequest) (output : String)
    (speak : Bool) (oracle : Nat → Bool) (pre : List Event)
    (hor : ∀ j, oracle j = true)
    (hpp : playsIn pre = false) (hpw : ∀ q, writesIn pre q = false) :
    (afterSynth req output speak oracle pre).exitCode = 0 ∧
    (playsIn (afterSynth req output speak oracle pre).events = true ↔
      (output = "" ∨ speak = true)) ∧
    (output ≠ "" →
      writesIn (afterSynth req output speak oracle pre).events output = true) ∧
    (output = "" →
      ∀ q, writesIn (afterSynth req output speak oracle pre).events q = false) := by
  obtain ⟨hsh, hex⟩ := afterSynth_success_shape req output speak oracle pre hor
  refine ⟨hex, ?_, ?_, ?_⟩
  · rw [hsh]
    by_cases ho : output = ""
    · rw [if_pos ho, playsIn_append, hpp]
      simp [playsIn, ho]
    · rw [if_neg ho]
      by_cases hsp : speak = true
      · rw [if_pos hsp, playsIn_append, hpp]
        simp [playsIn, ho, hsp]
      · rw [if_neg hsp, playsIn_append, hpp]
        simp [playsIn, ho, hsp]
  · intro ho
    rw [hsh, if_neg ho]
    by_cases hsp : speak = true
    · rw [if_pos hsp, writesIn_append]
      simp [writesIn]
    · rw [if_neg hsp, writesIn_append]
      simp [writesIn]
  · intro ho q
    rw [hsh, if_pos ho, writesIn_append, hpw q]
    simp [writesIn]

theorem runMain_err_or_zero (f : Flags) (text : String) (env : String → String)
    (oracle : Nat → Bool) :
    (runMain f text env oracle).exitCode = 0 ∨
      hasErrIn (runMain f text env oracle).events = true := by
  cases hpp : parseProvider (lowerStr f.provider) with
  | none =>
    right
    simp [runMain, hpp, hasErrIn]
  | some p =>
    by_cases hk : resolvedKey p f env = ""
    · right
      rw [runMain_missing_key oracle hpp hk]
      simp [hasErrIn]
    · by_cases hsv : (validateSpeed p f.speed).2 = true
      · right
        have ho : runMain f text env oracle = ⟨(validateSpeed p f.speed).1, 1⟩ := by
          simp only [runMain, hpp, runValidated]
          rw [if_neg hk, if_pos hsv]
        rw [ho]
        exact validateSpeed_snd_err p f.speed hsv
      · by_cases htx : text = ""
        · right
          have ho : runMain f text env oracle =
              ⟨(validateSpeed p f.speed).1 ++ [.err "Error: No text provided"], 1⟩ := by
            simp only [runMain, hpp, runValidated]
            rw [if_neg hk, if_neg hsv, if_pos htx]
          rw [ho]
          show hasErrIn _ = true
          simp [hasErrIn_append, hasErrIn]
        · by_cases hal : f.allFlag = true
          · cases p with
            | openai =>
              have hs1 : 0.25 ≤ f.speed := by
                by_contra hlt
                push_neg at hlt
                rw [validateSpeed_openai_fatal (Or.inl hlt)] at hsv
                exact hsv rfl
              have hs2 : f.speed ≤ 4.0 := by
                by_contra hgt
                push_neg at hgt
                rw [validateSpeed_openai_fatal (Or.inr hgt)] at hsv
                exact hsv rfl
              left
              rw [runMain_demo oracle hpp hal hk hs1 hs2 htx]
            | elevenlabs =>
              right
              have ho : runMain f text env oracle =
                  ⟨(validateSpeed .elevenlabs f.speed).1 ++
                    [.err "Error: --all flag is only supported for OpenAI provider"], 1⟩ := by
                simp only [runMain, hpp, runValidated]
                rw [if_neg hk, if_neg hsv, if_neg htx, if_pos hal]
              rw [ho]
              show hasErrIn _ = true
              simp [hasErrIn_append, hasErrIn]
            | deepgram =>
              right
              have ho : runMain f text env oracle =
                  ⟨(validateSpeed .deepgram f.speed).1 ++
                    [.err "Error: --all flag is only supported for OpenAI provider"], 1⟩ := by
                simp only [runMain, hpp, runValidated]
                rw [if_neg hk, if_neg hsv, if_neg htx, if_pos hal]
              rw [ho]
              show hasErrIn _ = true
              simp [hasErrIn_append, hasErrIn]
          · have hal2 : f.allFlag = false := by
              cases hb : f.allFlag
              · rfl
              · exact absurd hb hal
            have hsv2 : (validateSpeed p f.speed).2 = false := by
              cases hb : (validateSpeed p f.speed).2
              · rfl
              · exact absurd hb hsv
            rw [runMain_single oracle hpp hal2 hk hsv2 htx]
            cases p with
            | openai =>
              by_cases hvv : isValidOpenAIVoice (effectiveVoice .openai f) = true
              · obtain ⟨req, hre⟩ := singleShot_afterSynth .openai f
                  (resolvedKey .openai f env) (effectiveVoice .openai f)
                  (effectiveModel .openai f) text oracle
                  (validateSpeed .openai f.speed).1 (fun _ => hvv)
                rw [hre]
                exact afterSynth_err_or_zero _ _ _ _ _
              · right
                have hvf : isValidOpenAIVoice (effectiveVoice .openai f) = false := by
                  cases hb : isValidOpenAIVoice (effectiveVoice .openai f)
                  · rfl
                  · exact absurd hb hvv
                simp only [singleShot, hvf, Bool.false_eq_true, if_false]
                show hasErrIn _ = true
                simp [hasErrIn_append, hasErrIn]
            | elevenlabs =>
              exact afterSynth_err_or_zero _ _ _ _ _
            | deepgram =>
              exact afterSynth_err_or_zero _ _ _ _ _

end Gospeak

namespace Gospeak

/-- Claim C5: for every successful single-shot invocation the output
orchestration holds — exit code is 0, playback occurs exactly when the
output path is empty or the speak flag is set, a non-empty output path is
written, and with no output path nothing is written. -/
theorem C5_output_orchestration (p : Provider) (f : Flags) (text : String)
    (env : String → String) (oracle : Nat → Bool)
    (hp : parseProvider (lowerStr f.provider) = some p)
    (hall : f.allFlag = false)
    (hkey : resolvedKey p f env ≠ "")
    (hsv : (validateSpeed p f.speed).2 = false)
    (htx : text ≠ "")
    (hv : p = .openai → isValidOpenAIVoice (effectiveVoice p f) = true)
    (hor : ∀ j, oracle j = true) :
    (runMain f text env oracle).exitCode = 0 ∧
    (playsIn (runMain f text env oracle).events = true ↔
      (f.output = "" ∨ f.speak = true)) ∧
    (f.output ≠ "" → writesIn (runMain f text env oracle).events f.output = true) ∧
    (f.output = "" → ∀ q, writesIn (runMain f text env oracle).events q = false) := by
  rw [runMain_single oracle hp hall hkey hsv htx]
  obtain ⟨req, hre⟩ := singleShot_afterSynth p f (resolvedKey p f env)
    (effectiveVoice p f) (effectiveModel p f) text oracle
    (validateSpeed p f.speed).1 hv
  rw [hre]
  exact afterSynth_orchestration req f.output f.speak oracle _ hor
    (validateSpeed_noPlay p f.speed) (validateSpeed_noWrite p f.speed)

/-- Claim C5 witness: the orchestration theorem applied to a concrete
successful no-output invocation (it plays and writes nothing). -/
theorem C5_output_orchestration_witness :
    (runMain okFlags "hi" (fun _ => "") (fun _ => true)).exitCode = 0 ∧
    (playsIn (runMain okFlags "hi" (fun _ => "") (fun _ => true)).events = true ↔
      (okFlags.output = "" ∨ okFlags.speak = true)) ∧
    (okFlags.output ≠ "" →
      writesIn (runMain okFlags "hi" (fun _ => "") (fun _ => true)).events
        okFlags.output = true) ∧
    (okFlags.output = "" →
      ∀ q, writesIn (runMain okFlags "hi" (fun _ => "") (fun _ => true)).events
        q = false) :=
  C5_output_orchestration .openai okFlags "hi" (fun _ => "") (fun _ => true)
    (by decide) rfl (by decide)
    (by rw [validateSpeed_openai_ok (by norm_num [okFlags]) (by norm_num [okFlags])])
    (by decide) (fun _ => by decide) (fun _ => rfl)

/-- Claim C6: with no explicit token and an unset (or empty) designated
environment variable, the run fails with exit 1 before any request is
dispatched, printing the error line that names the provider's own
environment variable; an explicit token always takes precedence over the
environment. -/
theorem C6_credentials :
    (∀ (p : Provider) (f : Flags) (text : String) (env : String → String)
        (oracle : Nat → Bool),
      parseProvider (lowerStr f.provider) = some p →
      f.token = "" → env (envVarFor p) = "" →
      runMain f text env oracle = ⟨[.err (missingKeyMsg p)], 1⟩ ∧
        (runMain f text env oracle).requests = []) ∧
    (∀ (p : Provider) (f : Flags) (env : String → String),
      f.token ≠ "" → resolvedKey p f env = f.token) ∧
    (missingKeyMsg .openai =
      "Error: OPENAI_API_KEY environment variable not set and --token not provided") ∧
    (missingKeyMsg .elevenlabs =
      "Error: ELEVENLABS_API_KEY environment variable not set and --token not provided") ∧
    (missingKeyMsg .deepgram =
      "Error: DEEPGRAM_API_KEY environment variable not set and --token not provided") := by
  refine ⟨?_, ?_, rfl, rfl, rfl⟩
  · intro p f text env oracle hp htok henv
    have hkey : resolvedKey p f env = "" := by
      unfold resolvedKey
      rw [if_pos htok]
      exact henv
    have ho : runMain f text env oracle = ⟨[.err (missingKeyMsg p)], 1⟩ :=
      runMain_missing_key oracle hp hkey
    exact ⟨ho, by rw [ho]; rfl⟩
  · intro p f env htok
    unfold resolvedKey
    rw [if_neg htok]

/-- Claim C6 witness: the credential theorem applied concretely — a
tokenless OpenAI run with an empty environment fails citing
OPENAI_API_KEY, and an explicit token is the resolved key even with an
empty environment. -/
theorem C6_credentials_witness :
    runMain noKeyFlags "hi" (fun _ => "") (fun _ => true) =
      ⟨[.err (missingKeyMsg .openai)], 1⟩ ∧
    resolvedKey .deepgram okFlags (fun _ => "") = okFlags.token :=
  ⟨(C6_credentials.1 .openai noKeyFlags "hi" (fun _ => "") (fun _ => true)
      (by decide) rfl rfl).1,
   C6_credentials.2.1 .deepgram okFlags (fun _ => "") (by decide)⟩

/-- Claim C9: exit behavior — a valid demo-all run exits 0 whatever the
per-voice outcomes; every nonzero exit is preceded by a line on the
error stream; in single-shot mode a fully successful run exits 0 while a
failed synthesis exits 1 and a failed playback exits 1 both when playing
because no output path is set and when playing because the speak flag
accompanies an output path; and every validation failure (bad provider,
missing credential, fatal speed, empty text, invalid OpenAI voice, the
disallowed `--all` combination) exits 1. -/
theorem C9_exit_codes :
    (∀ (f : Flags) (text : String) (env : String → String) (oracle : Nat → Bool),
      parseProvider (lowerStr f.provider) = some .openai → f.allFlag = true →
      resolvedKey .openai f env ≠ "" → 0.25 ≤ f.speed → f.speed ≤ 4.0 → text ≠ "" →
      (runMain f text env oracle).exitCode = 0) ∧
    (∀ (f : Flags) (text : String) (env : String → String) (oracle : Nat → Bool),
      (runMain f text env oracle).exitCode ≠ 0 →
      hasErrIn (runMain f text env oracle).events = true) ∧
    (∀ (p : Provider) (f : Flags) (text : String) (env : String → String)
        (oracle : Nat → Bool),
      parseProvider (lowerStr f.provider) = some p → f.allFlag = false →
      resolvedKey p f env ≠ "" → (validateSpeed p f.speed).2 = false → text ≠ "" →
      (p = .openai → isValidOpenAIVoice (effectiveVoice p f) = true) →
      ((∀ j, oracle j = true) → (runMain f text env oracle).exitCode = 0) ∧
      (oracle 0 = false → (runMain f text env oracle).exitCode = 1) ∧
      (f.output = "" → oracle 0 = true → oracle 1 = false →
        (runMain f text env oracle).exitCode = 1) ∧
      (f.output ≠ "" → f.speak = true → oracle 0 = true → oracle 1 = true →
        oracle 2 = false → (runMain f text env oracle).exitCode = 1)) ∧
    (∀ (f : Flags) (text : String) (env : String → String) (oracle : Nat → Bool),
      parseProvider (lowerStr f.provider) = none →
      (runMain f text env oracle).exitCode = 1) ∧
    (∀ (p : Provider) (f : Flags) (text : String) (env : String → String)
        (oracle : Nat → Bool),
      parseProvider (lowerStr f.provider) = some p → resolvedKey p f env = "" →
      (runMain f text env oracle).exitCode = 1) ∧
    (∀ (p : Provider) (f : Flags) (text : String) (env : String → String)
        (oracle : Nat → Bool),
      parseProvider (lowerStr f.provider) = some p → resolvedKey p f env ≠ "" →
      (validateSpeed p f.speed).2 = true →
      (runMain f text env oracle).exitCode = 1) ∧
    (∀ (p : Provider) (f : Flags) (env : String → String) (oracle : Nat → Bool),
      parseProvider (lowerStr f.provider) = some p → resolvedKey p f env ≠ "" →
      (validateSpeed p f.speed).2 = false →
      (runMain f "" env oracle).exitCode = 1) ∧
    (∀ (f : Flags) (text : String) (env : String → String) (oracle : Nat → Bool),
      parseProvider (lowerStr f.provider) = some .openai → f.allFlag = false →
      resolvedKey .openai f env ≠ "" → (validateSpeed .openai f.speed).2 = false →
      text ≠ "" → isValidOpenAIVoice (effectiveVoice .openai f) = false →
      (runMain f text env oracle).exitCode = 1) ∧
    (∀ (f : Flags) (text : String) (env : String → String) (oracle : Nat → Bool),
      f.allFlag = true → lowerStr f.provider ≠ "openai" →
      (runMain f text env oracle).exitCode = 1) := by
  refine ⟨?_, ?_, ?_, ?_, ?_, ?_, ?_, ?_, ?_⟩
  · intro f text env oracle hp hall hkey hs1 hs2 htx
    rw [runMain_demo oracle hp hall hkey hs1 hs2 htx]
  · intro f text env oracle h
    rcases runMain_err_or_zero f text env oracle with h0 | he
    · exact absurd h0 h
    · exact he
  · intro p f text env oracle hp hall hkey hsv htx hv
    rw [runMain_single oracle hp hall hkey hsv htx]
    obtain ⟨req, hre⟩ := singleShot_afterSynth p f (resolvedKey p f env)
      (effectiveVoice p f) (effectiveModel p f) text oracle
      (validateSpeed p f.speed).1 hv
    rw [hre]
    refine ⟨?_, ?_, ?_, ?_⟩
    · intro hor
      exact (afterSynth_success_shape req f.output f.speak oracle _ hor).2
    · intro h0
      exact afterSynth_exit_one req f.output f.speak oracle _ h0
    · intro ho h0 h1
      rw [ho]
      exact afterSynth_play_fail req f.speak oracle _ h0 h1
    · intro ho hsp h0 h1 h2
      rw [hsp]
      exact afterSynth_speak_play_fail req f.output oracle _ ho h0 h1 h2
  · intro f text env oracle hp
    simp [runMain, hp]
  · intro p f text env oracle hp hk
    rw [runMain_missing_key oracle hp hk]
  · intro p f text env oracle hp hk hsv
    have ho : runMain f text env oracle = ⟨(validateSpeed p f.speed).1, 1⟩ := by
      simp only [runMain, hp, runValidated]
      rw [if_neg hk, if_pos hsv]
    rw [ho]
  · intro p f env oracle hp hk hsv
    have hsv2 : ¬((validateSpeed p f.speed).2 = true) := by simp [hsv]
    have ho : runMain f "" env oracle =
        ⟨(validateSpeed p f.speed).1 ++ [.err "Error: No text provided"], 1⟩ := by
      simp only [runMain, hp, runValidated]
      rw [if_neg hk, if_neg hsv2]
      simp
    rw [ho]
  · intro f text env oracle hp hall hkey hsv htx hvf
    rw [runMain_single oracle hp hall hkey hsv htx]
    simp only [singleShot, hvf, Bool.false_eq_true, if_false]
  · intro f text env oracle hall hp
    exact (runMain_all_non_openai f text env oracle hall hp).1

/-- Claim C9 witness: the exit-code theorem applied concretely — the
demo-all run exits 0 even when every attempt fails; a single-shot run
exits 0 on success, 1 when synthesis fails, and 1 when playback fails
with an output path and the speak flag set; the invalid OpenAI voice
and the ElevenLabs `--all` combination also exit 1. -/
theorem C9_exit_codes_witness :
    (runMain demoFlags "hi" (fun _ => "") (fun _ => false)).exitCode = 0 ∧
    (runMain okFlags "hi" (fun _ => "") (fun _ => true)).exitCode = 0 ∧
    (runMain okFlags "hi" (fun _ => "") (fun _ => false)).exitCode = 1 ∧
    (runMain outSpeakFlags "hi" (fun _ => "")
      (fun j => decide (j < 2))).exitCode = 1 ∧
    (runMain ovFlags "hi" (fun _ => "") (fun _ => true)).exitCode = 1 ∧
    (runMain elevenAllFlags "hi" (fun _ => "") (fun _ => true)).exitCode = 1 :=
  ⟨C9_exit_codes.1 demoFlags "hi" (fun _ => "") (fun _ => false)
    (by decide) rfl (by decide) (by norm_num [demoFlags]) (by norm_num [demoFlags])
    (by decide),
   (C9_exit_codes.2.2.1 .openai okFlags "hi" (fun _ => "") (fun _ => true)
    (by decide) rfl (by decide)
    (by rw [validateSpeed_openai_ok (by norm_num [okFlags]) (by norm_num [okFlags])])
    (by decide) (fun _ => by decide)).1 (fun _ => rfl),
   (C9_exit_codes.2.2.1 .openai okFlags "hi" (fun _ => "") (fun _ => false)
    (by decide) rfl (by decide)
    (by rw [validateSpeed_openai_ok (by norm_num [okFlags]) (by norm_num [okFlags])])
    (by decide) (fun _ => by decide)).2.1 rfl,
   (C9_exit_codes.2.2.1 .openai outSpeakFlags "hi" (fun _ => "")
    (fun j => decide (j < 2))
    (by decide) rfl (by decide)
    (by rw [validateSpeed_openai_ok (by norm_num [outSpeakFlags])
          (by norm_num [outSpeakFlags])])
    (by decide) (fun _ => by decide)).2.2.2 (by decide) rfl rfl rfl rfl,
   C9_exit_codes.2.2.2.2.2.2.2.1 ovFlags "hi" (fun _ => "") (fun _ => true)
    (by decide) rfl (by decide)
    (by rw [validateSpeed_openai_ok (by norm_num [ovFlags]) (by norm_num [ovFlags])])
    (by decide) (by decide),
   C9_exit_codes.2.2.2.2.2.2.2.2 elevenAllFlags "hi" (fun _ => "") (fun _ => true)
    rfl (by decide)⟩

end Gospeak
